import Mathlib

/-!
Shallow embedding of the core of seatedro/kawaiilogger (src/main.go):
the monitor registry, the multi-monitor mouse-distance accumulator, the
metrics counters updated by input-event callbacks, and the flush routine.

Modelling conventions:
- Go ints are modelled as Int (the counters and coordinates stay far from
  the 64-bit wrap, which is therefore not modelled).
- Go float64 arithmetic is modelled as real arithmetic.
- Code that would panic (indexing monitors[0] on an empty slice) returns
  Option.none.
- The package-level mutable variables (metrics, totalMetrics, lastMouseX,
  lastMouseY) are gathered into an explicit state record; each hook
  callback becomes a state-transformer function.
-/

namespace KawaiiLogger

/-- Monitor geometry, from struct Monitor in src/main.go (lines 50-58).
All Go fields are int, including Ppi (the float average DPI is truncated
to int by getMonitors). -/
structure Monitor where
  xPos : Int
  yPos : Int
  widthPx : Int
  heightPx : Int
  widthIn : Int
  heightIn : Int
  ppi : Int
deriving DecidableEq

/-- Since-flush tally, from struct Metrics in src/main.go (lines 34-40).
Distances are float64 in Go, modelled as reals. -/
structure Metrics where
  keypresses : Int
  mouseClicks : Int
  mouseDistanceIn : ℝ
  mouseDistanceMi : ℝ
  scrollSteps : Int

/-- Lifetime tally, from struct TotalMetrics in src/main.go (lines 42-48). -/
structure TotalMetrics where
  totalKeypresses : Int
  totalMouseClicks : Int
  totalMouseDistanceIn : ℝ
  totalMouseDistanceMi : ℝ
  totalScrollSteps : Int

/-- The package-level mutable state shared by the hook callbacks and the
flush loop: the two tallies and the last observed cursor position
(src/main.go lines 60-70). -/
structure CoreState where
  metrics : Metrics
  totalMetrics : TotalMetrics
  lastMouseX : Int
  lastMouseY : Int

/-- The Go zero value of Metrics; main sets metrics = &Metrics{}. -/
def emptyMetrics : Metrics := ⟨0, 0, 0, 0, 0⟩

/-- The Go zero value of TotalMetrics; main sets totalMetrics = &TotalMetrics{}. -/
def emptyTotalMetrics : TotalMetrics := ⟨0, 0, 0, 0, 0⟩

/-- State at startup: both tallies are fresh zero-valued structs and the
package vars lastMouseX, lastMouseY start at the Go int zero value 0. -/
def initialState : CoreState := ⟨emptyMetrics, emptyTotalMetrics, 0, 0⟩

/-- calculateDistance from src/main.go (lines 362-366): Euclidean pixel
distance; dx and dy are int differences converted to float64. -/
noncomputable def calculateDistance (x1 y1 x2 y2 : Int) : ℝ :=
  Real.sqrt (((x2 - x1 : Int) : ℝ) * ((x2 - x1 : Int) : ℝ) +
    ((y2 - y1 : Int) : ℝ) * ((y2 - y1 : Int) : ℝ))

/-- getMonitorSideCoordinates from src/main.go (lines 368-381): clamp the
destination coordinate to whichever edge of m it exceeded, tested in the
order left, right, top, bottom, holding the other coordinate at the
origin's value; if the destination exceeds no edge of m it is returned
unchanged. -/
def getMonitorSideCoordinates (x1 y1 x2 y2 : Int) (m : Monitor) : Int × Int :=
  if x2 < m.xPos then (m.xPos, y1)
  else if x2 ≥ m.xPos + m.widthPx then (m.xPos + m.widthPx - 1, y1)
  else if y2 < m.yPos then (x1, m.yPos)
  else if y2 ≥ m.yPos + m.heightPx then (x1, m.yPos + m.heightPx - 1)
  else (x2, y2)

/-- The containment test of getMonitorForCoordinates (src/main.go line 435):
x in [xPos, xPos+widthPx) and y in [yPos, yPos+heightPx). -/
def Monitor.contains (m : Monitor) (x y : Int) : Bool :=
  decide (x ≥ m.xPos) && decide (x < m.xPos + m.widthPx) &&
    decide (y ≥ m.yPos) && decide (y < m.yPos + m.heightPx)

/-- getMonitorForCoordinates from src/main.go (lines 433-441): the first
monitor of the slice whose rectangle contains the point, defaulting to
monitors[0]; on an empty slice the Go code would panic with an index out
of range, modelled as none. -/
def getMonitorForCoordinates (ms : List Monitor) (x y : Int) : Option Monitor :=
  match ms.find? (fun m => m.contains x y) with
  | some m => some m
  | none => ms.head?

/-- calculateMultiMonitorDistance from src/main.go (lines 413-431): resolve
both endpoints to monitors; if they resolve to the same monitor value,
the Euclidean pixel distance divided by that monitor's ppi; otherwise the
sum of the distances from the origin point to the two side coordinates,
both divided by the origin monitor's ppi. -/
noncomputable def calculateMultiMonitorDistance (ms : List Monitor) (x1 y1 x2 y2 : Int) : Option ℝ :=
  match getMonitorForCoordinates ms x1 y1, getMonitorForCoordinates ms x2 y2 with
  | some m1, some m2 =>
      if m1 = m2 then
        some (calculateDistance x1 y1 x2 y2 / (m1.ppi : ℝ))
      else
        some (calculateDistance x1 y1 (getMonitorSideCoordinates x1 y1 x2 y2 m1).1
                (getMonitorSideCoordinates x1 y1 x2 y2 m1).2 / (m1.ppi : ℝ) +
              calculateDistance x1 y1 (getMonitorSideCoordinates x1 y1 x2 y2 m2).1
                (getMonitorSideCoordinates x1 y1 x2 y2 m2).2 / (m1.ppi : ℝ))
  | _, _ => none

/-- The hook.KeyDown callback (src/main.go lines 288-291). -/
def onKeyDown (s : CoreState) : CoreState :=
  { s with
    metrics := { s.metrics with keypresses := s.metrics.keypresses + 1 },
    totalMetrics := { s.totalMetrics with
      totalKeypresses := s.totalMetrics.totalKeypresses + 1 } }

/-- The hook.MouseDown callback (src/main.go lines 293-296). -/
def onMouseDown (s : CoreState) : CoreState :=
  { s with
    metrics := { s.metrics with mouseClicks := s.metrics.mouseClicks + 1 },
    totalMetrics := { s.totalMetrics with
      totalMouseClicks := s.totalMetrics.totalMouseClicks + 1 } }

/-- The scroll-step delta int(math.Abs(float64(e.Rotation))) of the
hook.MouseWheel callback (src/main.go line 311). The rotation delivered by
the hook library is a small machine integer, its conversion to float64 is
exact, math.Abs of an integral float is exact, and truncation toward zero
of an integral float is the identity, so the delta equals the absolute
value of the rotation. -/
def scrollStepDelta (rotation : Int) : Int := (rotation.natAbs : Int)

/-- The hook.MouseWheel callback (src/main.go lines 310-314). -/
def onMouseWheel (s : CoreState) (rotation : Int) : CoreState :=
  { s with
    metrics := { s.metrics with
      scrollSteps := s.metrics.scrollSteps + scrollStepDelta rotation },
    totalMetrics := { s.totalMetrics with
      totalScrollSteps := s.totalMetrics.totalScrollSteps + scrollStepDelta rotation } }

/-- The hook.MouseMove callback (src/main.go lines 300-308): compute the
multi-monitor distance from the stored last position to the reported
position, add it (and its miles equivalent, distance / 63360) to both
tallies, and store the reported position; none models the panic reached
on an empty monitor slice. -/
noncomputable def onMouseMove (ms : List Monitor) (s : CoreState) (newX newY : Int) : Option CoreState :=
  (calculateMultiMonitorDistance ms s.lastMouseX s.lastMouseY newX newY).map fun distance =>
    { metrics := { s.metrics with
        mouseDistanceIn := s.metrics.mouseDistanceIn + distance,
        mouseDistanceMi := s.metrics.mouseDistanceMi + distance / 63360 },
      totalMetrics := { s.totalMetrics with
        totalMouseDistanceIn := s.totalMetrics.totalMouseDistanceIn + distance,
        totalMouseDistanceMi := s.totalMetrics.totalMouseDistanceMi + distance / 63360 },
      lastMouseX := newX,
      lastMouseY := newY }

/-- Outcome of one sink write attempt. -/
inductive SinkResult where
  | ok : SinkResult
  | fail : SinkResult
deriving DecidableEq

/-- Sink outcomes available to one saveMetrics call: the local sqlite Exec
result, and the remote dbQueries CreateMetrics result when a remote
backend is configured (none models dbQueries == nil). -/
structure FlushEnv where
  sqliteRes : SinkResult
  remoteRes : Option SinkResult

/-- resetMetrics from src/main.go (lines 354-360): zero every field of the
since-flush tally; the lifetime tally is not touched. -/
def resetMetrics (s : CoreState) : CoreState := { s with metrics := emptyMetrics }

/-- saveMetrics from src/main.go (lines 327-352): write the since-flush
tally to the sqlite sink; on error, log and return with the state
untouched. Otherwise, when a remote sink is configured, write the same
snapshot there too, logging but otherwise ignoring its error; then call
resetMetrics unconditionally. Returns the new state paired with the
snapshot the sqlite sink persisted (none when that write failed). -/
def saveMetrics (env : FlushEnv) (s : CoreState) : CoreState × Option Metrics :=
  match env.sqliteRes with
  | SinkResult.fail => (s, none)
  | SinkResult.ok => (resetMetrics s, some s.metrics)

/-- Monitor A of the spec scenarios: x in [0,1920), y in [0,1080), 96 PPI. -/
def monitorA : Monitor := ⟨0, 0, 1920, 1080, 20, 11, 96⟩

/-- Monitor B of the spec scenarios: x in [1920,3840), y in [0,1080),
192 PPI, adjacent to A. -/
def monitorB : Monitor := ⟨1920, 0, 1920, 1080, 10, 5, 192⟩

/-- A state with a nonzero since-flush tally, for concrete flush runs. -/
def sampleState : CoreState := ⟨⟨5, 2, 7, 1, 3⟩, ⟨9, 4, 11, 2, 6⟩, 40, 50⟩

/-- Field-wise order on the since-flush tally. -/
def metricsLe (a b : Metrics) : Prop :=
  a.keypresses ≤ b.keypresses ∧ a.mouseClicks ≤ b.mouseClicks ∧
  a.mouseDistanceIn ≤ b.mouseDistanceIn ∧ a.mouseDistanceMi ≤ b.mouseDistanceMi ∧
  a.scrollSteps ≤ b.scrollSteps

/-- Field-wise order on the lifetime tally. -/
def totalMetricsLe (a b : TotalMetrics) : Prop :=
  a.totalKeypresses ≤ b.totalKeypresses ∧ a.totalMouseClicks ≤ b.totalMouseClicks ∧
  a.totalMouseDistanceIn ≤ b.totalMouseDistanceIn ∧
  a.totalMouseDistanceMi ≤ b.totalMouseDistanceMi ∧
  a.totalScrollSteps ≤ b.totalScrollSteps

/-! Helper lemmas shared by the claim theorems. -/

/-- On a horizontal move the Euclidean pixel distance is the absolute
horizontal delta. -/
theorem calculateDistance_horizontal (x1 y x2 : Int) :
    calculateDistance x1 y x2 y = |((x2 - x1 : Int) : ℝ)| := by
  unfold calculateDistance
  have h : ((x2 - x1 : Int) : ℝ) * ((x2 - x1 : Int) : ℝ) +
      ((y - y : Int) : ℝ) * ((y - y : Int) : ℝ) = ((x2 - x1 : Int) : ℝ) ^ 2 := by
    push_cast
    ring
  rw [h, Real.sqrt_sq_eq_abs]

/-- Unfolding of the accumulator on the same-monitor branch. -/
theorem calcMMD_same (ms : List Monitor) (x1 y1 x2 y2 : Int) (m : Monitor)
    (h1 : getMonitorForCoordinates ms x1 y1 = some m)
    (h2 : getMonitorForCoordinates ms x2 y2 = some m) :
    calculateMultiMonitorDistance ms x1 y1 x2 y2 =
      some (calculateDistance x1 y1 x2 y2 / (m.ppi : ℝ)) := by
  unfold calculateMultiMonitorDistance
  rw [h1, h2]
  simp

/-- Unfolding of the accumulator on the cross-monitor branch. -/
theorem calcMMD_cross (ms : List Monitor) (x1 y1 x2 y2 : Int) (m1 m2 : Monitor)
    (h1 : getMonitorForCoordinates ms x1 y1 = some m1)
    (h2 : getMonitorForCoordinates ms x2 y2 = some m2)
    (hne : m1 ≠ m2) :
    calculateMultiMonitorDistance ms x1 y1 x2 y2 =
      some (calculateDistance x1 y1 (getMonitorSideCoordinates x1 y1 x2 y2 m1).1
              (getMonitorSideCoordinates x1 y1 x2 y2 m1).2 / (m1.ppi : ℝ) +
            calculateDistance x1 y1 (getMonitorSideCoordinates x1 y1 x2 y2 m2).1
              (getMonitorSideCoordinates x1 y1 x2 y2 m2).2 / (m1.ppi : ℝ)) := by
  unfold calculateMultiMonitorDistance
  rw [h1, h2]
  simp [hne]

/-- The monitor lookup only returns monitors of the registry. -/
theorem getMonitorForCoordinates_mem (ms : List Monitor) (x y : Int) (m : Monitor)
    (h : getMonitorForCoordinates ms x y = some m) : m ∈ ms := by
  unfold getMonitorForCoordinates at h
  cases hf : ms.find? (fun m => m.contains x y) with
  | some m0 =>
      rw [hf] at h
      cases h
      exact List.mem_of_find?_eq_some hf
  | none =>
      rw [hf] at h
      change ms.head? = some m at h
      exact List.mem_of_mem_head? (Option.mem_def.mpr h)

/-- On a non-empty registry the monitor lookup always succeeds. -/
theorem getMonitorForCoordinates_isSome (ms : List Monitor) (x y : Int)
    (hne : ms ≠ []) : ∃ m, getMonitorForCoordinates ms x y = some m := by
  unfold getMonitorForCoordinates
  cases hf : ms.find? (fun m => m.contains x y) with
  | some m0 => exact ⟨m0, rfl⟩
  | none => exact ⟨ms.head hne, List.head?_eq_head hne⟩

/-- With positive PPIs, every distance delta the accumulator produces is
nonnegative. -/
theorem calcMMD_nonneg (ms : List Monitor) (x1 y1 x2 y2 : Int) (d : ℝ)
    (hppi : ∀ m ∈ ms, 0 < m.ppi)
    (h : calculateMultiMonitorDistance ms x1 y1 x2 y2 = some d) : 0 ≤ d := by
  unfold calculateMultiMonitorDistance at h
  cases h1 : getMonitorForCoordinates ms x1 y1 with
  | none => rw [h1] at h; cases h
  | some m1 =>
      cases h2 : getMonitorForCoordinates ms x2 y2 with
      | none => rw [h1, h2] at h; cases h
      | some m2 =>
          rw [h1, h2] at h
          have hm1 : (0 : ℝ) ≤ (m1.ppi : ℝ) := by
            exact_mod_cast le_of_lt (hppi m1 (getMonitorForCoordinates_mem ms x1 y1 m1 h1))
          by_cases he : m1 = m2
          · simp [he] at h
            rw [← h]
            exact div_nonneg (Real.sqrt_nonneg _) (by simpa [he] using hm1)
          · simp [he] at h
            rw [← h]
            exact add_nonneg (div_nonneg (Real.sqrt_nonneg _) hm1)
              (div_nonneg (Real.sqrt_nonneg _) hm1)

/-- Value of the accumulator on the spec's cross-monitor scenario. -/
theorem c1_eval : calculateMultiMonitorDistance [monitorA, monitorB] 1900 100 1940 100 =
    some ((19 : ℝ) / 96 + 40 / 96) := by
  have h := calcMMD_cross [monitorA, monitorB] 1900 100 1940 100 monitorA monitorB
    (by decide) (by decide) (by decide)
  rw [h]
  have hs1 : getMonitorSideCoordinates 1900 100 1940 100 monitorA = (1919, 100) := by decide
  have hs2 : getMonitorSideCoordinates 1900 100 1940 100 monitorB = (1940, 100) := by decide
  rw [hs1, hs2]
  show some (calculateDistance 1900 100 1919 100 / ((96 : Int) : ℝ) +
    calculateDistance 1900 100 1940 100 / ((96 : Int) : ℝ)) = _
  rw [calculateDistance_horizontal, calculateDistance_horizontal]
  norm_num

/-- On a non-empty registry the accumulator always produces a value. -/
theorem calcMMD_isSome (ms : List Monitor) (x1 y1 x2 y2 : Int) (hne : ms ≠ []) :
    (calculateMultiMonitorDistance ms x1 y1 x2 y2).isSome = true := by
  obtain ⟨m1, h1⟩ := getMonitorForCoordinates_isSome ms x1 y1 hne
  obtain ⟨m2, h2⟩ := getMonitorForCoordinates_isSome ms x2 y2 hne
  unfold calculateMultiMonitorDistance
  rw [h1, h2]
  by_cases he : m1 = m2 <;> simp [he]

/-- Claim C1 fails on the code at the spec's own scenario: for the move
(1900,100) to (1940,100) across monitors A and B, the exit point on A is
not (1920,100) and the exit point computed against B's rectangle is not
(1920,100), and the total distance is not 20px/96 + 20px/96. -/
theorem c1_counterexample :
    getMonitorSideCoordinates 1900 100 1940 100 monitorA ≠ (1920, 100) ∧
    getMonitorSideCoordinates 1900 100 1940 100 monitorB ≠ (1920, 100) ∧
    calculateMultiMonitorDistance [monitorA, monitorB] 1900 100 1940 100 ≠
      some ((20 : ℝ) / 96 + 20 / 96) := by
  refine ⟨by decide, by decide, ?_⟩
  rw [c1_eval]
  intro h
  have h' := Option.some.inj h
  norm_num at h'

/-- Claim C1, amended to what the code computes: on the same scenario the
exit point on A is (1919,100) (the destination is clamped to the last
pixel column xPos + widthPx - 1, not to the boundary 1920), the edge-clamp
against B returns the destination (1940,100) unchanged because it lies
inside B's rectangle, and the accumulator yields 19px/96 + 40px/96 = 59/96
of an inch, both segments normalized by A's PPI. -/
theorem c1_cross_monitor_scenario :
    getMonitorSideCoordinates 1900 100 1940 100 monitorA = (1919, 100) ∧
    getMonitorSideCoordinates 1900 100 1940 100 monitorB = (1940, 100) ∧
    calculateMultiMonitorDistance [monitorA, monitorB] 1900 100 1940 100 =
      some ((19 : ℝ) / 96 + 40 / 96) :=
  ⟨by decide, by decide, c1_eval⟩

/-- Claim C2: whenever the two endpoints of a move resolve to different
monitors m1 and m2, the accumulator returns
pixelDist(p1, exitPoint1)/m1.ppi + pixelDist(p1, exitPoint2)/m1.ppi, where
each exit point is the edge-clamp of the destination against the
respective monitor's rectangle; both segments are divided by m1's PPI. -/
theorem c2_cross_monitor_normalization (ms : List Monitor) (x1 y1 x2 y2 : Int)
    (m1 m2 : Monitor)
    (h1 : getMonitorForCoordinates ms x1 y1 = some m1)
    (h2 : getMonitorForCoordinates ms x2 y2 = some m2)
    (hne : m1 ≠ m2) :
    calculateMultiMonitorDistance ms x1 y1 x2 y2 =
      some (calculateDistance x1 y1 (getMonitorSideCoordinates x1 y1 x2 y2 m1).1
              (getMonitorSideCoordinates x1 y1 x2 y2 m1).2 / (m1.ppi : ℝ) +
            calculateDistance x1 y1 (getMonitorSideCoordinates x1 y1 x2 y2 m2).1
              (getMonitorSideCoordinates x1 y1 x2 y2 m2).2 / (m1.ppi : ℝ)) :=
  calcMMD_cross ms x1 y1 x2 y2 m1 m2 h1 h2 hne

/-- Witness for claim C2 at the concrete A/B scenario. -/
theorem c2_witness :
    getMonitorForCoordinates [monitorA, monitorB] 1900 100 = some monitorA ∧
    getMonitorForCoordinates [monitorA, monitorB] 1940 100 = some monitorB ∧
    monitorA ≠ monitorB ∧
    calculateMultiMonitorDistance [monitorA, monitorB] 1900 100 1940 100 =
      some (calculateDistance 1900 100
              (getMonitorSideCoordinates 1900 100 1940 100 monitorA).1
              (getMonitorSideCoordinates 1900 100 1940 100 monitorA).2 / (monitorA.ppi : ℝ) +
            calculateDistance 1900 100
              (getMonitorSideCoordinates 1900 100 1940 100 monitorB).1
              (getMonitorSideCoordinates 1900 100 1940 100 monitorB).2 / (monitorA.ppi : ℝ)) :=
  ⟨by decide, by decide, by decide,
    c2_cross_monitor_normalization [monitorA, monitorB] 1900 100 1940 100 monitorA monitorB
      (by decide) (by decide) (by decide)⟩

/-- Claim C3: whenever both endpoints of a move resolve to the same
monitor m, the accumulator returns the Euclidean pixel distance divided
by m's PPI; in particular on 96-PPI monitor A the move (100,100) to
(500,100) yields 400/96 inches. -/
theorem c3_same_monitor_distance :
    (∀ (ms : List Monitor) (x1 y1 x2 y2 : Int) (m : Monitor),
      getMonitorForCoordinates ms x1 y1 = some m →
      getMonitorForCoordinates ms x2 y2 = some m →
      calculateMultiMonitorDistance ms x1 y1 x2 y2 =
        some (calculateDistance x1 y1 x2 y2 / (m.ppi : ℝ))) ∧
    calculateMultiMonitorDistance [monitorA] 100 100 500 100 = some ((400 : ℝ) / 96) := by
  refine ⟨calcMMD_same, ?_⟩
  have h := calcMMD_same [monitorA] 100 100 500 100 monitorA (by decide) (by decide)
  rw [h, calculateDistance_horizontal]
  norm_num [monitorA]

/-- Witness for claim C3: a same-monitor move on monitor B. -/
theorem c3_witness :
    getMonitorForCoordinates [monitorB] 2000 100 = some monitorB ∧
    getMonitorForCoordinates [monitorB] 2010 100 = some monitorB ∧
    calculateMultiMonitorDistance [monitorB] 2000 100 2010 100 =
      some (calculateDistance 2000 100 2010 100 / (monitorB.ppi : ℝ)) :=
  ⟨by decide, by decide,
    c3_same_monitor_distance.1 [monitorB] 2000 100 2010 100 monitorB (by decide) (by decide)⟩

/-- Claim C4 fails on the code: with a remote backend configured, when the
sqlite write succeeds but the remote sink write fails, saveMetrics still
resets the since-flush tally instead of leaving it unchanged. -/
theorem c4_counterexample :
    (saveMetrics ⟨SinkResult.ok, some SinkResult.fail⟩ sampleState).1.metrics ≠
      sampleState.metrics := by
  intro h
  have h5 : (0 : Int) = 5 := congrArg Metrics.keypresses h
  norm_num at h5

/-- Claim C4, amended: if the primary sqlite write fails, the since-flush
tally is left entirely unchanged and nothing is persisted, so a following
cycle whose sqlite write succeeds with no intervening events persists
exactly the snapshot attempted at the failing cycle; after any cycle
whose sqlite write succeeds the tally is reset, even when the optional
secondary remote write fails. -/
theorem c4_failure_keeps_tally (env envT1 : FlushEnv) (s : CoreState)
    (hfail : env.sqliteRes = SinkResult.fail)
    (hok : envT1.sqliteRes = SinkResult.ok) :
    (saveMetrics env s).1 = s ∧
    (saveMetrics env s).2 = none ∧
    (saveMetrics envT1 (saveMetrics env s).1).2 = some s.metrics ∧
    (saveMetrics envT1 (saveMetrics env s).1).1.metrics = emptyMetrics := by
  unfold saveMetrics
  rw [hfail, hok]
  exact ⟨rfl, rfl, rfl, rfl⟩

/-- Witness for amended claim C4: a failing cycle followed by a cycle that
succeeds locally while the remote write fails. -/
theorem c4_witness :
    (FlushEnv.mk SinkResult.fail none).sqliteRes = SinkResult.fail ∧
    (FlushEnv.mk SinkResult.ok (some SinkResult.fail)).sqliteRes = SinkResult.ok ∧
    ((saveMetrics ⟨SinkResult.fail, none⟩ sampleState).1 = sampleState ∧
     (saveMetrics ⟨SinkResult.fail, none⟩ sampleState).2 = none ∧
     (saveMetrics ⟨SinkResult.ok, some SinkResult.fail⟩
        (saveMetrics ⟨SinkResult.fail, none⟩ sampleState).1).2 = some sampleState.metrics ∧
     (saveMetrics ⟨SinkResult.ok, some SinkResult.fail⟩
        (saveMetrics ⟨SinkResult.fail, none⟩ sampleState).1).1.metrics = emptyMetrics) :=
  ⟨rfl, rfl, c4_failure_keeps_tally ⟨SinkResult.fail, none⟩
    ⟨SinkResult.ok, some SinkResult.fail⟩ sampleState rfl rfl⟩

/-- Claim C5: after a flush whose sqlite write succeeds, every field of
the since-flush tally is zero and the lifetime tally is unchanged. -/
theorem c5_flush_reset (env : FlushEnv) (s : CoreState)
    (h : env.sqliteRes = SinkResult.ok) :
    (saveMetrics env s).1.metrics.keypresses = 0 ∧
    (saveMetrics env s).1.metrics.mouseClicks = 0 ∧
    (saveMetrics env s).1.metrics.mouseDistanceIn = 0 ∧
    (saveMetrics env s).1.metrics.mouseDistanceMi = 0 ∧
    (saveMetrics env s).1.metrics.scrollSteps = 0 ∧
    (saveMetrics env s).1.totalMetrics = s.totalMetrics := by
  unfold saveMetrics
  rw [h]
  exact ⟨rfl, rfl, rfl, rfl, rfl, rfl⟩

/-- Witness for claim C5 at a fully successful flush of a nonzero tally. -/
theorem c5_witness :
    (FlushEnv.mk SinkResult.ok (some SinkResult.ok)).sqliteRes = SinkResult.ok ∧
    ((saveMetrics ⟨SinkResult.ok, some SinkResult.ok⟩ sampleState).1.metrics.keypresses = 0 ∧
     (saveMetrics ⟨SinkResult.ok, some SinkResult.ok⟩ sampleState).1.metrics.mouseClicks = 0 ∧
     (saveMetrics ⟨SinkResult.ok, some SinkResult.ok⟩ sampleState).1.metrics.mouseDistanceIn = 0 ∧
     (saveMetrics ⟨SinkResult.ok, some SinkResult.ok⟩ sampleState).1.metrics.mouseDistanceMi = 0 ∧
     (saveMetrics ⟨SinkResult.ok, some SinkResult.ok⟩ sampleState).1.metrics.scrollSteps = 0 ∧
     (saveMetrics ⟨SinkResult.ok, some SinkResult.ok⟩ sampleState).1.totalMetrics =
       sampleState.totalMetrics) :=
  ⟨rfl, c5_flush_reset ⟨SinkResult.ok, some SinkResult.ok⟩ sampleState rfl⟩

/-- Claim C6: on a non-empty registry the lookup always yields a monitor;
when some monitor of the registry contains the point the result is a
monitor of the registry containing the point, and when no monitor
contains it the result is the first monitor of the registry. -/
theorem c6_monitor_lookup (ms : List Monitor) (x y : Int) (hne : ms ≠ []) :
    (∃ m, getMonitorForCoordinates ms x y = some m) ∧
    ((∃ m ∈ ms, m.contains x y = true) →
      ∃ m, getMonitorForCoordinates ms x y = some m ∧ m ∈ ms ∧ m.contains x y = true) ∧
    ((∀ m ∈ ms, m.contains x y = false) →
      getMonitorForCoordinates ms x y = some (ms.head hne)) := by
  refine ⟨getMonitorForCoordinates_isSome ms x y hne, ?_, ?_⟩
  · intro hex
    unfold getMonitorForCoordinates
    cases hf : ms.find? (fun m => m.contains x y) with
    | some m0 =>
        have hp : m0.contains x y = true :=
          List.find?_some (p := fun m : Monitor => m.contains x y) hf
        exact ⟨m0, rfl, List.mem_of_find?_eq_some hf, hp⟩
    | none =>
        obtain ⟨m, hm, hp⟩ := hex
        exact absurd hp (by simpa using List.find?_eq_none.mp hf m hm)
  · intro hall
    unfold getMonitorForCoordinates
    cases hf : ms.find? (fun m => m.contains x y) with
    | some m0 =>
        have hp : m0.contains x y = true :=
          List.find?_some (p := fun m : Monitor => m.contains x y) hf
        rw [hall m0 (List.mem_of_find?_eq_some hf)] at hp
        cases hp
    | none =>
        exact List.head?_eq_head hne

/-- Witness for claim C6: a contained point resolves to monitor B, and a
point off both monitors falls back to the first monitor. -/
theorem c6_witness :
    ([monitorA, monitorB] ≠ ([] : List Monitor)) ∧
    (∃ m, getMonitorForCoordinates [monitorA, monitorB] 2000 100 = some m ∧
      m ∈ [monitorA, monitorB] ∧ m.contains 2000 100 = true) ∧
    getMonitorForCoordinates [monitorA, monitorB] 5000 5000 =
      some ([monitorA, monitorB].head (by decide)) := by
  refine ⟨by decide, ?_, ?_⟩
  · exact (c6_monitor_lookup [monitorA, monitorB] 2000 100 (by decide)).2.1
      ⟨monitorB, by decide, by decide⟩
  · exact (c6_monitor_lookup [monitorA, monitorB] 5000 5000 (by decide)).2.2 (by decide)

/-- Claim C7: a mouse-wheel event with signed rotation adds the absolute
value of the rotation (truncation toward zero is the identity on the
integral rotation) to both scroll-step tallies; in particular rotation -3
adds 3 to each. -/
theorem c7_scroll_steps (s : CoreState) (rotation : Int) :
    (onMouseWheel s rotation).metrics.scrollSteps =
      s.metrics.scrollSteps + (rotation.natAbs : Int) ∧
    (onMouseWheel s rotation).totalMetrics.totalScrollSteps =
      s.totalMetrics.totalScrollSteps + (rotation.natAbs : Int) ∧
    (onMouseWheel s (-3)).metrics.scrollSteps = s.metrics.scrollSteps + 3 ∧
    (onMouseWheel s (-3)).totalMetrics.totalScrollSteps =
      s.totalMetrics.totalScrollSteps + 3 :=
  ⟨rfl, rfl, rfl, rfl⟩

/-- Claim C8: with a non-empty monitor set of positive PPIs, each event
callback leaves every field of both tallies at or above its previous
value, and neither flush operation ever changes (hence never decreases)
the lifetime tally. -/
theorem c8_monotonic (ms : List Monitor) (s : CoreState) (x y rotation : Int)
    (hne : ms ≠ []) (hppi : ∀ m ∈ ms, 0 < m.ppi) :
    (metricsLe s.metrics (onKeyDown s).metrics ∧
      totalMetricsLe s.totalMetrics (onKeyDown s).totalMetrics) ∧
    (metricsLe s.metrics (onMouseDown s).metrics ∧
      totalMetricsLe s.totalMetrics (onMouseDown s).totalMetrics) ∧
    (metricsLe s.metrics (onMouseWheel s rotation).metrics ∧
      totalMetricsLe s.totalMetrics (onMouseWheel s rotation).totalMetrics) ∧
    (∃ s', onMouseMove ms s x y = some s') ∧
    (∀ s', onMouseMove ms s x y = some s' →
      metricsLe s.metrics s'.metrics ∧ totalMetricsLe s.totalMetrics s'.totalMetrics) ∧
    (∀ env, (saveMetrics env s).1.totalMetrics = s.totalMetrics) ∧
    (resetMetrics s).totalMetrics = s.totalMetrics := by
  refine ⟨?_, ?_, ?_, ?_, ?_, ?_, rfl⟩
  · constructor
    · refine ⟨?_, le_refl _, le_refl _, le_refl _, le_refl _⟩
      show s.metrics.keypresses ≤ s.metrics.keypresses + 1
      omega
    · refine ⟨?_, le_refl _, le_refl _, le_refl _, le_refl _⟩
      show s.totalMetrics.totalKeypresses ≤ s.totalMetrics.totalKeypresses + 1
      omega
  · constructor
    · refine ⟨le_refl _, ?_, le_refl _, le_refl _, le_refl _⟩
      show s.metrics.mouseClicks ≤ s.metrics.mouseClicks + 1
      omega
    · refine ⟨le_refl _, ?_, le_refl _, le_refl _, le_refl _⟩
      show s.totalMetrics.totalMouseClicks ≤ s.totalMetrics.totalMouseClicks + 1
      omega
  · constructor
    · refine ⟨le_refl _, le_refl _, le_refl _, le_refl _, ?_⟩
      show s.metrics.scrollSteps ≤ s.metrics.scrollSteps + scrollStepDelta rotation
      simp only [scrollStepDelta]
      omega
    · refine ⟨le_refl _, le_refl _, le_refl _, le_refl _, ?_⟩
      show s.totalMetrics.totalScrollSteps ≤
        s.totalMetrics.totalScrollSteps + scrollStepDelta rotation
      simp only [scrollStepDelta]
      omega
  · obtain ⟨d, hd⟩ := Option.isSome_iff_exists.mp
      (calcMMD_isSome ms s.lastMouseX s.lastMouseY x y hne)
    exact ⟨_, by unfold onMouseMove; rw [hd]; rfl⟩
  · intro s' hs'
    unfold onMouseMove at hs'
    cases hd : calculateMultiMonitorDistance ms s.lastMouseX s.lastMouseY x y with
    | none => rw [hd] at hs'; cases hs'
    | some d =>
        rw [hd] at hs'
        have hnn : 0 ≤ d := calcMMD_nonneg ms s.lastMouseX s.lastMouseY x y d hppi hd
        have hnn2 : 0 ≤ d / 63360 := div_nonneg hnn (by norm_num)
        rw [Option.map_some'] at hs'
        cases hs'
        constructor
        · exact ⟨le_refl _, le_refl _, le_add_of_nonneg_right hnn,
            le_add_of_nonneg_right hnn2, le_refl _⟩
        · exact ⟨le_refl _, le_refl _, le_add_of_nonneg_right hnn,
            le_add_of_nonneg_right hnn2, le_refl _⟩
  · intro env
    unfold saveMetrics
    cases env.sqliteRes <;> rfl

/-- Witness for claim C8 at a single 96-PPI monitor and a nonzero state. -/
theorem c8_witness :
    (([monitorA] : List Monitor) ≠ []) ∧ (∀ m ∈ [monitorA], 0 < m.ppi) ∧
    ((metricsLe sampleState.metrics (onKeyDown sampleState).metrics ∧
      totalMetricsLe sampleState.totalMetrics (onKeyDown sampleState).totalMetrics) ∧
     (metricsLe sampleState.metrics (onMouseDown sampleState).metrics ∧
      totalMetricsLe sampleState.totalMetrics (onMouseDown sampleState).totalMetrics) ∧
     (metricsLe sampleState.metrics (onMouseWheel sampleState (-2)).metrics ∧
      totalMetricsLe sampleState.totalMetrics (onMouseWheel sampleState (-2)).totalMetrics) ∧
     (∃ s', onMouseMove [monitorA] sampleState 3 4 = some s') ∧
     (∀ s', onMouseMove [monitorA] sampleState 3 4 = some s' →
       metricsLe sampleState.metrics s'.metrics ∧
       totalMetricsLe sampleState.totalMetrics s'.totalMetrics) ∧
     (∀ env, (saveMetrics env sampleState).1.totalMetrics = sampleState.totalMetrics) ∧
     (resetMetrics sampleState).totalMetrics = sampleState.totalMetrics) :=
  ⟨by decide, by decide,
    c8_monotonic [monitorA] sampleState 3 4 (-2) (by decide) (by decide)⟩

/-- Claim C10: the stored last-observed cursor position starts at (0,0),
so the first mouse-move event computes its distance delta from the origin
(0,0) to the reported point. -/
theorem c10_initial_position (ms : List Monitor) (x y : Int) (d : ℝ)
    (h : calculateMultiMonitorDistance ms 0 0 x y = some d) :
    initialState.lastMouseX = 0 ∧ initialState.lastMouseY = 0 ∧
    ∃ s', onMouseMove ms initialState x y = some s' ∧
      s'.metrics.mouseDistanceIn = d ∧
      s'.totalMetrics.totalMouseDistanceIn = d := by
  refine ⟨rfl, rfl, ?_⟩
  have hmove : onMouseMove ms initialState x y = some
      { metrics := { emptyMetrics with
          mouseDistanceIn := emptyMetrics.mouseDistanceIn + d,
          mouseDistanceMi := emptyMetrics.mouseDistanceMi + d / 63360 },
        totalMetrics := { emptyTotalMetrics with
          totalMouseDistanceIn := emptyTotalMetrics.totalMouseDistanceIn + d,
          totalMouseDistanceMi := emptyTotalMetrics.totalMouseDistanceMi + d / 63360 },
        lastMouseX := x, lastMouseY := y } := by
    unfold onMouseMove
    rw [show initialState.lastMouseX = (0 : Int) from rfl,
      show initialState.lastMouseY = (0 : Int) from rfl, h]
    rfl
  refine ⟨_, hmove, ?_, ?_⟩
  · show emptyMetrics.mouseDistanceIn + d = d
    simp [emptyMetrics]
  · show emptyTotalMetrics.totalMouseDistanceIn + d = d
    simp [emptyTotalMetrics]

/-- Witness for claim C10: the first move to (100,0) on monitor A is
measured from (0,0) and yields 100/96 inches. -/
theorem c10_witness :
    calculateMultiMonitorDistance [monitorA] 0 0 100 0 = some ((100 : ℝ) / 96) ∧
    (initialState.lastMouseX = 0 ∧ initialState.lastMouseY = 0 ∧
      ∃ s', onMouseMove [monitorA] initialState 100 0 = some s' ∧
        s'.metrics.mouseDistanceIn = (100 : ℝ) / 96 ∧
        s'.totalMetrics.totalMouseDistanceIn = (100 : ℝ) / 96) := by
  have heval : calculateMultiMonitorDistance [monitorA] 0 0 100 0 =
      some ((100 : ℝ) / 96) := by
    have h := calcMMD_same [monitorA] 0 0 100 0 monitorA (by decide) (by decide)
    rw [h, calculateDistance_horizontal]
    norm_num [monitorA]
  exact ⟨heval, c10_initial_position [monitorA] 100 0 _ heval⟩

end KawaiiLogger
